import Mathlib

/-!
Verification of the Gold-tier AI orchestrator core
(`phase3_gold/ai_orchestrator.py`): message classification, the
human-in-the-loop gate, the retrying script runner, the bounded
"Ralph Wiggum" completion loop, per-message processing, run metrics,
and the append-only audit log.

Modelling conventions: Python strings are Lean `String`s; `dict.get`
with a default is `Option.getD`; subprocess execution is abstracted by
an oracle `attempts : Nat -> AttemptResult` giving the outcome of the
i-th external process invocation; wall-clock sleeping is recorded as the
list of requested delays; writes to `Audit_Log.md` (always opened in
append mode) are recorded as lists of structured `AuditEntry` values,
one per logger call.
-/

namespace Orch

/-- Python's `str.lower()`, as a character-wise map (ASCII-faithful). -/
def toLowerStr (s : String) : String := ⟨s.data.map Char.toLower⟩

/-- Python's `str.strip()`: whitespace removed from both ends. -/
def trimStr (s : String) : String :=
  ⟨((s.data.dropWhile Char.isWhitespace).reverse.dropWhile Char.isWhitespace).reverse⟩

/-- Python's `needle in hay` substring containment on character lists
(`'' in s` is `True`, as in Python). -/
def isSubstringL (needle : List Char) : List Char → Bool
  | [] => needle.isEmpty
  | c :: t => needle.isPrefixOf (c :: t) || isSubstringL needle t

/-- Substring containment on strings, mirroring Python's `in` operator. -/
def substrB (needle hay : String) : Bool :=
  isSubstringL needle.toList hay.toList

-- Configuration constants from the top of `ai_orchestrator.py`.

/-- `MAX_RETRIES = 3`. -/
def MAX_RETRIES : Nat := 3

/-- `RETRY_DELAY = 2` (seconds). -/
def RETRY_DELAY : Nat := 2

/-- `RALPH_WIGGUM_MAX_ITERATIONS = 10`. -/
def RALPH_WIGGUM_MAX_ITERATIONS : Nat := 10

/-- `PERSONAL_DOMAINS = ['gmail', 'whatsapp', 'personal']`. -/
def PERSONAL_DOMAINS : List String := ["gmail", "whatsapp", "personal"]

/-- `BUSINESS_DOMAINS = ['linkedin', 'facebook', 'instagram', 'twitter', 'x', 'business']`. -/
def BUSINESS_DOMAINS : List String :=
  ["linkedin", "facebook", "instagram", "twitter", "x", "business"]

/-- `MessageType` enum. -/
inductive MessageType
  | personal
  | business
  | unknown
  deriving DecidableEq, Repr

/-- The `.value` string of each `MessageType` member. -/
def MessageType.value : MessageType → String
  | .personal => "personal"
  | .business => "business"
  | .unknown => "unknown"

/-- `TaskStatus` enum. -/
inductive TaskStatus
  | pending
  | in_progress
  | complete
  | failed
  deriving DecidableEq, Repr

/-- An inbox message dict; every field is optional, as `message.get`
with a default is used throughout the source. -/
structure Message where
  id : Option String
  source : Option String
  subject : Option String
  content : Option String
  deriving DecidableEq, Repr

/-- `MessageClassifier.personal_keywords`. -/
def personal_keywords : List String :=
  ["family", "friend", "personal", "home", "vacation",
   "birthday", "party", "dinner", "casual"]

/-- `MessageClassifier.business_keywords`. -/
def business_keywords : List String :=
  ["work", "meeting", "project", "client", "business",
   "proposal", "contract", "deadline", "professional"]

/-- Body of `MessageClassifier.classify` on the three lowered strings:
source-tag containment first (personal before business), then keyword
hit counts over `f"{subject} {content}"`. -/
def classifyStrings (source subject content : String) : MessageType :=
  if PERSONAL_DOMAINS.any (fun d => substrB d source) = true then .personal
  else if BUSINESS_DOMAINS.any (fun d => substrB d source) = true then .business
  else
    let text := subject ++ " " ++ content
    let personal_score := personal_keywords.countP (fun kw => substrB kw text)
    let business_score := business_keywords.countP (fun kw => substrB kw text)
    if business_score < personal_score then .personal
    else if personal_score < business_score then .business
    else .unknown

/-- `MessageClassifier.classify`: fields default to `''` and are lowered. -/
def classify (msg : Message) : MessageType :=
  classifyStrings (toLowerStr (msg.source.getD "")) (toLowerStr (msg.subject.getD ""))
    (toLowerStr (msg.content.getD ""))

/-- One structured block written to `Audit_Log.md`; one constructor per
`AuditLogger` method (`log`, `log_task`, `log_error`,
`log_human_decision`, `weekly_audit_summary`). Timestamps are supplied
externally at render time. -/
inductive AuditEntry
  | event (event_type details status : String)
  | task (task_id action domain status details : String)
  | error (task_id error : String) (attempt max_attempts : Nat)
  | humanDecision (task_id action : String) (confirmed : Bool)
  | weeklySummary (tasks_processed errors : Nat) (success_rate : ℚ)
  deriving DecidableEq

/-- `HumanInTheLoop.SENSITIVE_ACTIONS`. -/
def SENSITIVE_ACTIONS : List String :=
  ["login", "batch_post", "financial", "account_change", "delete",
   "post", "linkedin", "facebook", "instagram", "twitter", "social"]

/-- `HumanInTheLoop.is_sensitive`: case-insensitive substring match
against the sensitive-action vocabulary. -/
def is_sensitive (action : String) : Bool :=
  SENSITIVE_ACTIONS.any (fun kw => substrB kw (toLowerStr action))

/-- The `response in ['yes', 'y', 'ye']` check on the operator's
stripped, lowered reply in `HumanInTheLoop.confirm`. -/
def responseConfirmed (response : String) : Bool :=
  ["yes", "y", "ye"].contains (toLowerStr (trimStr response))

/-- `HumanInTheLoop.confirm`, given the process-wide `AUTO_CONFIRM` flag
and the operator's raw reply; paired with the list of entries the call
itself appends to the audit trail (the method writes none: it only uses
the operational logger and stdin/stdout). -/
def confirmResult (autoConfirm : Bool) (action : String) (response : String) :
    Bool × List AuditEntry :=
  if autoConfirm = true then (true, [])
  else if is_sensitive action = false then (true, [])
  else (responseConfirmed response, [])

/-- Boolean value of `HumanInTheLoop.confirm`. -/
def confirmB (autoConfirm : Bool) (action : String) (response : String) : Bool :=
  (confirmResult autoConfirm action response).1

/-- Outcome of one `subprocess.run` invocation inside
`ScriptRunner.run_script`: normal completion with an exit code and
combined output, `subprocess.TimeoutExpired`, or some other raised
exception. -/
inductive AttemptResult
  | completed (returncode : Nat) (output : String)
  | timedOut
  | raised (msg : String)
  deriving DecidableEq

/-- Whether the attempt took the `result.returncode == 0` success path. -/
def AttemptResult.isSuccess : AttemptResult → Bool
  | .completed 0 _ => true
  | _ => false

/-- Captured output of a completed attempt. -/
def AttemptResult.outputOf : AttemptResult → String
  | .completed _ out => out
  | _ => ""

/-- The `last_error` string recorded for a failed attempt. -/
def AttemptResult.errMsg : AttemptResult → String
  | .completed rc _ => "Script exited with code " ++ toString rc
  | .timedOut => "Script timed out"
  | .raised m => m

/-- Result of `ScriptRunner.run_script`, with its observable effects:
the `(success, output, retry_count)` return value, the number of
subprocess invocations, the backoff sleeps requested (in order, in
seconds), and the audit entries appended. -/
structure RunScriptResult where
  success : Bool
  output : Option String
  retries : Nat
  procCalls : Nat
  sleeps : List Nat
  audit : List AuditEntry
  deriving DecidableEq

/-- The `while retries < MAX_RETRIES` loop of `ScriptRunner.run_script`,
with `fuel = MAX_RETRIES - retries` driving the recursion. Each round:
the human-in-the-loop check for paths containing `login`/`poster`
(denial returns immediately with retry count 0 and a HumanDecision audit
entry), one subprocess attempt, and on failure a `log_error` entry plus
an exponential-backoff sleep of `RETRY_DELAY * 2^(retries_new - 1)`
seconds unless the attempt was the last. -/
def runScriptGo (autoConfirm : Bool) (response scriptPath taskId : String)
    (attempts : Nat → AttemptResult) : Nat → Nat → Option String → RunScriptResult
  | 0, retries, lastError =>
    { success := false, output := lastError, retries := retries,
      procCalls := 0, sleeps := [], audit := [] }
  | fuel + 1, retries, _ =>
    if ((substrB "login" (toLowerStr scriptPath) || substrB "poster" (toLowerStr scriptPath))
        && !(confirmB autoConfirm "script_execution" response)) = true then
      { success := false, output := some "Human denied execution", retries := 0,
        procCalls := 0, sleeps := [],
        audit := [.humanDecision taskId "script_execution" false] }
    else
      let a := attempts retries
      if a.isSuccess = true then
        { success := true, output := some a.outputOf, retries := retries,
          procCalls := 1, sleeps := [], audit := [] }
      else
        let rest := runScriptGo autoConfirm response scriptPath taskId attempts
          fuel (retries + 1) (some a.errMsg)
        { rest with
            procCalls := rest.procCalls + 1,
            audit := .error taskId a.errMsg (retries + 1) MAX_RETRIES :: rest.audit,
            sleeps :=
              if retries + 1 < MAX_RETRIES then RETRY_DELAY * 2 ^ retries :: rest.sleeps
              else rest.sleeps }

/-- `ScriptRunner.run_script`: the loop entered with `retries = 0` and
`last_error = None`. -/
def runScript (autoConfirm : Bool) (response scriptPath taskId : String)
    (attempts : Nat → AttemptResult) : RunScriptResult :=
  runScriptGo autoConfirm response scriptPath taskId attempts MAX_RETRIES 0 none

/-- Mutable state of a `RalphWiggumLoop` instance. -/
structure RalphState where
  max_iterations : Nat
  current_iteration : Nat
  task_status : TaskStatus
  deriving DecidableEq, Repr

/-- `RalphWiggumLoop.start`: counter reset to 0, status `IN_PROGRESS`. -/
def ralphStart (maxIterations : Nat) : RalphState :=
  { max_iterations := maxIterations, current_iteration := 0,
    task_status := .in_progress }

/-- `RalphWiggumLoop.next_iteration`: increments the counter; if it has
reached `max_iterations` the status becomes `FAILED` and the call
returns `false`, else it returns `true`. The second component is the
updated state, the third the audit entry logged. -/
def nextIteration (taskId : String) (s : RalphState) :
    Bool × RalphState × AuditEntry :=
  let c := s.current_iteration + 1
  if s.max_iterations ≤ c then
    (false,
     { s with current_iteration := c, task_status := .failed },
     .event "RALPH_WIGGUM_MAX"
       ("Task: " ++ taskId ++ ", Iterations: " ++ toString c) "INFO")
  else
    (true,
     { s with current_iteration := c },
     .event "RALPH_WIGGUM_ITERATION"
       ("Task: " ++ taskId ++ ", Iteration: " ++ toString c) "INFO")

/-- Aggregate outcome and effects of the
`while self.ralph_loop.next_iteration():` loop in
`AIOrchestrator.process_message`. `iterCalls` counts the calls to
`next_iteration`, `lastRetries` is the retry count returned by the last
(successful) `run_script` call. -/
structure DriveResult where
  state : RalphState
  success : Bool
  lastRetries : Nat
  iterCalls : Nat
  procCalls : Nat
  sleeps : List Nat
  audit : List AuditEntry

/-- The outer Ralph Wiggum loop of `process_message`: repeatedly call
`next_iteration` (its branch condition inlined) and, while it allows,
run the script; stop on the first success. `used` indexes the global
subprocess-attempt oracle past invocations already consumed. -/
def ralphDrive (autoConfirm : Bool) (response scriptPath taskId : String)
    (attempts : Nat → AttemptResult) (used : Nat) (s : RalphState) : DriveResult :=
  if _h : s.max_iterations ≤ s.current_iteration + 1 then
    { state := { s with
                  current_iteration := s.current_iteration + 1,
                  task_status := .failed },
      success := false, lastRetries := 0, iterCalls := 1, procCalls := 0,
      sleeps := [],
      audit := [.event "RALPH_WIGGUM_MAX"
        ("Task: " ++ taskId ++ ", Iterations: " ++ toString (s.current_iteration + 1))
        "INFO"] }
  else
    let s1 : RalphState := { s with current_iteration := s.current_iteration + 1 }
    let iterEv : AuditEntry := .event "RALPH_WIGGUM_ITERATION"
      ("Task: " ++ taskId ++ ", Iteration: " ++ toString s1.current_iteration) "INFO"
    let r := runScript autoConfirm response scriptPath taskId
      (fun i => attempts (used + i))
    if r.success = true then
      { state := s1, success := true, lastRetries := r.retries, iterCalls := 1,
        procCalls := r.procCalls, sleeps := r.sleeps, audit := iterEv :: r.audit }
    else
      let rest := ralphDrive autoConfirm response scriptPath taskId attempts
        (used + r.procCalls) s1
      { rest with
          iterCalls := rest.iterCalls + 1,
          procCalls := r.procCalls + rest.procCalls,
          sleeps := r.sleeps ++ rest.sleeps,
          audit := iterEv :: (r.audit ++ rest.audit) }
termination_by s.max_iterations - s.current_iteration
decreasing_by omega

/-- The orchestrator's `tasks_processed` / `errors` counters. -/
structure OrchCounters where
  tasks_processed : Nat
  errors : Nat
  deriving DecidableEq, Repr

/-- Script mapping `AIOrchestrator.personal_scripts` (paths relative to
the base directory). -/
def personal_scripts : List (String × String) :=
  [("gmail", "Watchers/gmail_watcher.py"),
   ("whatsapp", "WhatsApp/whatsapp_watcher.py")]

/-- Script mapping `AIOrchestrator.business_scripts`. -/
def business_scripts : List (String × String) :=
  [("linkedin", "LinkedIn/linkedin_watcher.py"),
   ("facebook", "Watchers/facebook_watcher.py"),
   ("instagram", "Watchers/instagram_watcher.py"),
   ("twitter", "Watchers/twitter_watcher.py"),
   ("x", "Watchers/twitter_watcher.py")]

/-- `AIOrchestrator.get_script_for_message`: first mapping key contained
in the lowered source wins, else the per-domain default
(`whatsapp` / `linkedin`); `None` for the Unknown domain. -/
def getScriptForMessage (msg : Message) (msgType : MessageType) : Option String :=
  let source := toLowerStr (msg.source.getD "")
  match msgType with
  | .personal =>
    match personal_scripts.find? (fun p => substrB p.1 source) with
    | some p => some p.2
    | none => personal_scripts.lookup "whatsapp"
  | .business =>
    match business_scripts.find? (fun p => substrB p.1 source) with
    | some p => some p.2
    | none => business_scripts.lookup "linkedin"
  | .unknown => none

/-- Result and observable effects of `AIOrchestrator.process_message`:
return value, updated counters, final Ralph loop state (`none` when the
loop was never started), audit entries appended, subprocess invocations,
sleeps, and `next_iteration` call count. -/
structure ProcResult where
  success : Bool
  counters : OrchCounters
  ralph : Option RalphState
  audit : List AuditEntry
  procCalls : Nat
  sleeps : List Nat
  iterCalls : Nat

/-- `AIOrchestrator.process_message`: the batch-operation
human-in-the-loop check, classification (with its audit entry), script
resolution (failing immediately with a FAILED task entry and an error
count when none resolves), then the Ralph Wiggum loop around
`run_script`, with the success/failure bookkeeping that follows it. -/
def processMessage (autoConfirm : Bool) (response : String)
    (attempts : Nat → AttemptResult) (c : OrchCounters) (msg : Message) : ProcResult :=
  let taskId := msg.id.getD ("task_" ++ toString c.tasks_processed)
  if (is_sensitive "batch_post" && !autoConfirm
      && !(confirmB autoConfirm "process_message" response)) = true then
    { success := false, counters := { c with errors := c.errors + 1 },
      ralph := none,
      audit := [.humanDecision taskId "process_message" false],
      procCalls := 0, sleeps := [], iterCalls := 0 }
  else
    let msgType := classify msg
    let classEv : AuditEntry := .event "MESSAGE_CLASSIFIED"
      ("Task: " ++ taskId ++ ", Type: " ++ msgType.value) "INFO"
    match getScriptForMessage msg msgType with
    | none =>
      { success := false, counters := { c with errors := c.errors + 1 },
        ralph := none,
        audit := [classEv,
          .task taskId "CLASSIFY" "unknown" "FAILED" "No matching script found"],
        procCalls := 0, sleeps := [], iterCalls := 0 }
    | some script =>
      let domain := if msgType = MessageType.personal then "personal" else "business"
      let s0 := ralphStart RALPH_WIGGUM_MAX_ITERATIONS
      let startEv : AuditEntry := .event "RALPH_WIGGUM_START"
        ("Task: " ++ taskId ++ ", Max iterations: " ++ toString s0.max_iterations) "INFO"
      let d := ralphDrive autoConfirm response script taskId attempts 0 s0
      if d.success = true then
        let sC := { d.state with task_status := TaskStatus.complete }
        { success := true,
          counters := { c with tasks_processed := c.tasks_processed + 1 },
          ralph := some sC,
          audit := classEv :: startEv :: (d.audit ++
            [.event "RALPH_WIGGUM_COMPLETE"
               ("Task: " ++ taskId ++ ", Iterations: " ++ toString sC.current_iteration)
               "SUCCESS",
             .task taskId "PROCESS" domain "SUCCESS"
               ("Script: " ++ script ++ ", Retries: " ++ toString d.lastRetries)]),
          procCalls := d.procCalls, sleeps := d.sleeps, iterCalls := d.iterCalls }
      else
        { success := false, counters := { c with errors := c.errors + 1 },
          ralph := some d.state,
          audit := classEv :: startEv :: (d.audit ++
            [.event "RALPH_WIGGUM_FAIL"
               ("Task: " ++ taskId ++ ", Reason: Max iterations exhausted for " ++ taskId)
               "FAILED",
             .task taskId "PROCESS" domain "FAILED"
               ("Ralph Wiggum Loop exhausted after " ++ toString d.state.current_iteration
                ++ " iterations - gracefully skipped")]),
          procCalls := d.procCalls, sleeps := d.sleeps, iterCalls := d.iterCalls }

/-- The dict returned by `AIOrchestrator.run`. -/
structure RunResult where
  processed : Nat
  errors : Nat
  success_rate : ℚ
  deriving DecidableEq, Repr

/-- The success-rate computation of `AIOrchestrator.run`:
`tasks_processed / total * 100` when `total > 0`, else `100.0`. -/
def computeSuccessRate (processed errors : Nat) : ℚ :=
  if 0 < processed + errors then
    (processed : ℚ) / ((processed : ℚ) + (errors : ℚ)) * 100
  else 100

/-- `AIOrchestrator.run`: the early `{processed: 0, errors: 0,
success_rate: 100.0}` return on an empty inbox, otherwise one
`process_message` per inbox message (counters threaded through, the
subprocess oracle advanced by the invocations each message consumed)
followed by the metric computation. -/
def runOrchestrator (autoConfirm : Bool) (response : String)
    (attempts : Nat → AttemptResult) (inbox : List Message) : RunResult :=
  if inbox.isEmpty = true then
    { processed := 0, errors := 0, success_rate := 100 }
  else
    let final := inbox.foldl
      (fun (st : OrchCounters × Nat) msg =>
        let p := processMessage autoConfirm response
          (fun i => attempts (st.2 + i)) st.1 msg
        (p.counters, st.2 + p.procCalls))
      ({ tasks_processed := 0, errors := 0 }, 0)
    { processed := final.1.tasks_processed, errors := final.1.errors,
      success_rate := computeSuccessRate final.1.tasks_processed final.1.errors }

/-- Observable outcome of `main()`: the summary it prints and the exit
code handed to `sys.exit`. -/
structure MainResult where
  summary : RunResult
  exitCode : Nat
  deriving DecidableEq, Repr

/-- `main()`: one full `run()` pass over the inbox, the aggregate
summary printed from its result, and exit code `0` iff
`result['errors'] == 0`, else `1`. -/
def mainEntry (autoConfirm : Bool) (response : String)
    (attempts : Nat → AttemptResult) (inbox : List Message) : MainResult :=
  let r := runOrchestrator autoConfirm response attempts inbox
  { summary := r, exitCode := if r.errors = 0 then 0 else 1 }

/-- Markdown block a single `AuditLogger` method call writes, with the
externally supplied timestamp interpolated. -/
def renderAuditEntry (timestamp : String) : AuditEntry → String
  | .event event_type details status =>
    "### [" ++ timestamp ++ "] " ++ status ++ ": " ++ event_type ++ "\n\n"
      ++ details ++ "\n\n---\n\n"
  | .task task_id action domain status details =>
    "### [" ++ timestamp ++ "] TASK: " ++ task_id ++ "\n\n"
      ++ "- **Action**: " ++ action ++ "\n"
      ++ "- **Domain**: " ++ domain ++ "\n"
      ++ "- **Status**: " ++ status ++ "\n"
      ++ (if details = "" then "" else "- **Details**: " ++ details ++ "\n")
      ++ "\n---\n\n"
  | .error task_id err attempt max_attempts =>
    "### [" ++ timestamp ++ "] ERROR: " ++ task_id ++ "\n\n"
      ++ "- **Error**: " ++ err ++ "\n"
      ++ "- **Attempt**: " ++ toString attempt ++ "/" ++ toString max_attempts ++ "\n"
      ++ "- **Action**: "
      ++ (if attempt < max_attempts then "Retrying" else "Skipping gracefully")
      ++ "\n\n---\n\n"
  | .humanDecision task_id action confirmed =>
    "### [" ++ timestamp ++ "] HUMAN_DECISION: " ++ task_id ++ "\n\n"
      ++ "- **Action**: " ++ action ++ "\n"
      ++ "- **Decision**: " ++ (if confirmed = true then "CONFIRMED" else "DENIED")
      ++ "\n\n---\n\n"
  | .weeklySummary tasks_processed errors success_rate =>
    "## Weekly Audit Summary - " ++ timestamp ++ "\n\n"
      ++ "- **Tasks Processed**: " ++ toString tasks_processed ++ "\n"
      ++ "- **Errors**: " ++ toString errors ++ "\n"
      ++ "- **Success Rate**: " ++ toString success_rate ++ "%\n"
      ++ "- **Status**: " ++ (if 90 < success_rate then "HEALTHY" else "REVIEW_NEEDED")
      ++ "\n\n---\n\n"

/-- The audit-log file as the sequence of blocks written to it so far
(concatenating them yields the file's bytes). Every `AuditLogger` method
opens the file with mode `'a'` and writes one block: the new state of
the file is the old sequence with one rendered block appended. -/
def writeAudit (file : List String) (write : String × AuditEntry) : List String :=
  file ++ [renderAuditEntry write.1 write.2]

/-- A sequence of `AuditLogger` calls applied in order. -/
def writeAudits (file : List String) (writes : List (String × AuditEntry)) :
    List String :=
  writes.foldl writeAudit file

-- Helper lemmas shared by the claim theorems.

/-- `run_script` consults the gate with the fixed label
`"script_execution"`, which matches no sensitive keyword, so `confirm`
approves no matter what the operator would answer. -/
theorem confirmB_script_execution (ac : Bool) (r : String) :
    confirmB ac "script_execution" r = true := by
  cases ac <;> rfl

/-- `process_message` consults the gate with the fixed label
`"process_message"`, which matches no sensitive keyword, so `confirm`
approves no matter what the operator would answer. -/
theorem confirmB_process_message (ac : Bool) (r : String) :
    confirmB ac "process_message" r = true := by
  cases ac <;> rfl

/-- Exact outcome of `run_script` when every subprocess attempt fails:
three invocations, sleeps of `RETRY_DELAY` and `2 * RETRY_DELAY` between
them, one `log_error` entry per attempt. -/
theorem runScript_alwaysFail (ac : Bool) (resp sp tid : String)
    (attempts : Nat → AttemptResult) (hf : ∀ i, (attempts i).isSuccess = false) :
    runScript ac resp sp tid attempts =
      { success := false, output := some (attempts 2).errMsg, retries := 3,
        procCalls := 3, sleeps := [RETRY_DELAY, RETRY_DELAY * 2],
        audit := [.error tid (attempts 0).errMsg 1 MAX_RETRIES,
                  .error tid (attempts 1).errMsg 2 MAX_RETRIES,
                  .error tid (attempts 2).errMsg 3 MAX_RETRIES] } := by
  have hc := confirmB_script_execution ac resp
  unfold runScript
  show runScriptGo ac resp sp tid attempts (2 + 1) 0 none = _
  simp [runScriptGo, hc, hf 0, hf 1, hf 2, MAX_RETRIES, RETRY_DELAY]

/-- When every subprocess attempt fails, the Ralph Wiggum loop runs to
exhaustion: final counter and `next_iteration` call count equal
`max_iterations`, status is Failed, the drive reports failure. -/
theorem ralphDrive_alwaysFail (ac : Bool) (resp sp tid : String)
    (attempts : Nat → AttemptResult) (hf : ∀ i, (attempts i).isSuccess = false) :
    ∀ (n : Nat) (s : RalphState) (used : Nat),
      s.current_iteration < s.max_iterations →
      s.max_iterations - s.current_iteration = n →
      (ralphDrive ac resp sp tid attempts used s).state =
        { max_iterations := s.max_iterations, current_iteration := s.max_iterations,
          task_status := .failed } ∧
      (ralphDrive ac resp sp tid attempts used s).iterCalls =
        s.max_iterations - s.current_iteration ∧
      (ralphDrive ac resp sp tid attempts used s).success = false := by
  intro n
  induction n with
  | zero => intro s used h1 h2; omega
  | succ k ih =>
    intro s used h1 h2
    unfold ralphDrive
    by_cases hb : s.max_iterations ≤ s.current_iteration + 1
    · rw [dif_pos hb]
      obtain ⟨m, c, st⟩ := s
      simp at h1 hb ⊢
      constructor
      · omega
      · omega
    · rw [dif_neg hb]
      have hr := runScript_alwaysFail ac resp sp tid
        (fun i => attempts (used + i)) (fun i => hf (used + i))
      simp only [hr]
      have ih2 := ih { s with current_iteration := s.current_iteration + 1 }
        (used + 3) (by simp; omega) (by simp; omega)
      simp only at ih2 ⊢
      rw [if_neg (by simp)]
      refine ⟨ih2.1, ?_, ih2.2.2⟩
      simp only [ih2.2.1]
      omega

/-- C1. For a task whose handler always fails, the Ralph Wiggum
completion loop driven by `process_message` terminates with status
Failed after exactly `max_iterations` calls to `next_iteration` (the
iteration counter, reset to 0 by `start`, ends at `max_iterations`;
default 10); `next_iteration` increments the counter and returns `false`
(setting status Failed) exactly when the incremented counter has reached
`max_iterations`, and returns `true` (leaving the status unchanged)
otherwise. -/
theorem c1_completion_loop_bounded (maxIter : Nat) (hmax : 1 ≤ maxIter)
    (ac : Bool) (resp sp tid : String) (attempts : Nat → AttemptResult)
    (hf : ∀ i, (attempts i).isSuccess = false) (used : Nat) :
    (ralphDrive ac resp sp tid attempts used (ralphStart maxIter)).state =
      { max_iterations := maxIter, current_iteration := maxIter,
        task_status := .failed } ∧
    (ralphDrive ac resp sp tid attempts used (ralphStart maxIter)).iterCalls = maxIter ∧
    (ralphDrive ac resp sp tid attempts used (ralphStart maxIter)).success = false ∧
    RALPH_WIGGUM_MAX_ITERATIONS = 10 ∧
    (ralphStart maxIter).current_iteration = 0 ∧
    (∀ s : RalphState,
      ((nextIteration tid s).1 = false ↔ s.max_iterations ≤ s.current_iteration + 1) ∧
      (nextIteration tid s).2.1.current_iteration = s.current_iteration + 1 ∧
      ((nextIteration tid s).1 = false → (nextIteration tid s).2.1.task_status = .failed) ∧
      ((nextIteration tid s).1 = true → (nextIteration tid s).2.1.task_status = s.task_status)) := by
  have h := ralphDrive_alwaysFail ac resp sp tid attempts hf maxIter
    (ralphStart maxIter) used (by simp [ralphStart]; omega) (by simp [ralphStart])
  refine ⟨by simpa [ralphStart] using h.1, by simpa [ralphStart] using h.2.1,
    h.2.2, rfl, rfl, ?_⟩
  intro s
  unfold nextIteration
  by_cases hb : s.max_iterations ≤ s.current_iteration + 1
  · simp [hb]
  · simp [hb]

/-- C1 witness: ten iterations with an always-timing-out handler, at the
default ceiling of 10. -/
theorem c1_witness :
    1 ≤ 10 ∧
    ((ralphDrive false "no" "Watchers/gmail_watcher.py" "t1"
        (fun _ => AttemptResult.timedOut) 0 (ralphStart 10)).state =
      { max_iterations := 10, current_iteration := 10, task_status := .failed } ∧
    (ralphDrive false "no" "Watchers/gmail_watcher.py" "t1"
        (fun _ => AttemptResult.timedOut) 0 (ralphStart 10)).iterCalls = 10) := by
  have h := c1_completion_loop_bounded 10 (by decide) false "no"
    "Watchers/gmail_watcher.py" "t1" (fun _ => AttemptResult.timedOut)
    (fun _ => rfl) 0
  exact ⟨by decide, h.1, h.2.1⟩

/-- C3. A handler that fails on every attempt is run exactly
`MAX_RETRIES` (3) times: attempt 2 is preceded by a sleep of
`RETRY_DELAY` seconds and attempt 3 by `2 * RETRY_DELAY` (i.e. the sleep
after failed attempt `k` is `RETRY_DELAY * 2^(k-1)`), no sleep follows
the final attempt, and every failed attempt logs a `log_error` audit
entry carrying its attempt number and the ceiling. -/
theorem c3_retry_ceiling (ac : Bool) (resp sp tid : String)
    (attempts : Nat → AttemptResult) (hf : ∀ i, (attempts i).isSuccess = false) :
    runScript ac resp sp tid attempts =
      { success := false, output := some (attempts 2).errMsg, retries := 3,
        procCalls := 3, sleeps := [RETRY_DELAY, RETRY_DELAY * 2],
        audit := [.error tid (attempts 0).errMsg 1 MAX_RETRIES,
                  .error tid (attempts 1).errMsg 2 MAX_RETRIES,
                  .error tid (attempts 2).errMsg 3 MAX_RETRIES] } ∧
    MAX_RETRIES = 3 ∧
    [RETRY_DELAY, RETRY_DELAY * 2] = [RETRY_DELAY * 2 ^ 0, RETRY_DELAY * 2 ^ 1] :=
  ⟨runScript_alwaysFail ac resp sp tid attempts hf, rfl, rfl⟩

/-- C3 witness: an always-timing-out handler. -/
theorem c3_witness :
    (∀ i : Nat, ((fun _ => AttemptResult.timedOut) i).isSuccess = false) ∧
    runScript true "" "LinkedIn/linkedin_watcher.py" "t2"
        (fun _ => AttemptResult.timedOut) =
      { success := false, output := some AttemptResult.timedOut.errMsg, retries := 3,
        procCalls := 3, sleeps := [RETRY_DELAY, RETRY_DELAY * 2],
        audit := [.error "t2" AttemptResult.timedOut.errMsg 1 MAX_RETRIES,
                  .error "t2" AttemptResult.timedOut.errMsg 2 MAX_RETRIES,
                  .error "t2" AttemptResult.timedOut.errMsg 3 MAX_RETRIES] } :=
  ⟨fun _ => rfl,
   (c3_retry_ceiling true "" "LinkedIn/linkedin_watcher.py" "t2"
     (fun _ => AttemptResult.timedOut) (fun _ => rfl)).1⟩

/-- C2 (code bug). The spec requires that for a sensitive handler path
(containing `login` or `poster`), with auto-confirm off, an operator
denial makes `run_script` return Denied with zero subprocess invocations
and a HumanDecision audit entry. In the code, `run_script` consults the
gate with the fixed label `"script_execution"`, which contains no
keyword of `SENSITIVE_ACTIONS`, so `confirm` returns `True` before ever
prompting the operator: at script path `gmail_login.py` with
`AUTO_CONFIRM` off and an operator who would answer "no", the handler is
still invoked `MAX_RETRIES` times and no HumanDecision entry is written. -/
theorem c2_code_bug_denial_unreachable :
    is_sensitive "script_execution" = false ∧
    confirmB false "script_execution" "no" = true ∧
    is_sensitive "gmail_login.py" = true ∧
    (runScript false "no" "gmail_login.py" "task1" (fun _ => AttemptResult.timedOut)).procCalls
      = 3 ∧
    (runScript false "no" "gmail_login.py" "task1" (fun _ => AttemptResult.timedOut)).success
      = false ∧
    (runScript false "no" "gmail_login.py" "task1" (fun _ => AttemptResult.timedOut)).audit
      = [.error "task1" "Script timed out" 1 3,
         .error "task1" "Script timed out" 2 3,
         .error "task1" "Script timed out" 3 3] := by
  refine ⟨by decide, by decide, by decide, ?_, ?_, ?_⟩ <;> decide

/-- Modelled from the spec's classification algorithm (§4.1), as
amended: personal-domain tags checked on the source first, then
business-domain tags, then keyword hit counts over the space-separated
concatenation of subject and content, strictly-higher count wins, ties
give Unknown. -/
def classifySpec (msg : Message) : MessageType :=
  let source := toLowerStr (msg.source.getD "")
  let text := toLowerStr (msg.subject.getD "") ++ " " ++ toLowerStr (msg.content.getD "")
  if PERSONAL_DOMAINS.any (fun tag => substrB tag source) = true then .personal
  else if BUSINESS_DOMAINS.any (fun tag => substrB tag source) = true then .business
  else
    let personalHits := personal_keywords.countP (fun kw => substrB kw text)
    let businessHits := business_keywords.countP (fun kw => substrB kw text)
    if businessHits < personalHits then .personal
    else if personalHits < businessHits then .business
    else .unknown

/-- C4 counterexample. The claim's edge case fails: a message with empty
source and empty content but subject `"birthday"` is classified
Personal, not Unknown. Also, the keyword text is the space-separated
join of subject and content, not their plain concatenation: with subject
`"wor"` and content `"k"` the code scores no keyword and returns
Unknown, although the keyword `work` is contained in the plain
concatenation `"wor" ++ "k"` (which would make the business count 1 and
the claimed result Business). -/
theorem c4_counterexample :
    classify { id := none, source := some "", subject := some "birthday",
               content := some "" } = MessageType.personal ∧
    MessageType.personal ≠ MessageType.unknown ∧
    classify { id := none, source := some "", subject := some "wor",
               content := some "k" } = MessageType.unknown ∧
    substrB "work" ("wor" ++ "k") = true ∧
    business_keywords.countP (fun kw => substrB kw ("wor" ++ "k")) = 1 ∧
    personal_keywords.countP (fun kw => substrB kw ("wor" ++ "k")) = 0 := by
  refine ⟨by decide, by decide, by decide, by decide, by decide, by decide⟩

/-- C4 (amended). `classify` is a pure function agreeing with the spec's
algorithm read with the space-separated subject/content join: source
tags first (personal before business, substring containment on the
lowered source), then keyword hit counts, strictly higher count wins,
ties give Unknown; and a message whose source, subject and content are
all empty or missing is classified Unknown. -/
theorem c4_classify_algorithm (msg : Message) :
    classify msg = classifySpec msg ∧
    (msg.source.getD "" = "" → msg.subject.getD "" = "" → msg.content.getD "" = "" →
      classify msg = MessageType.unknown) := by
  constructor
  · rfl
  · intro h1 h2 h3
    unfold classify
    rw [h1, h2, h3]
    decide

/-- C4 witness: the all-missing-fields message is classified Unknown. -/
theorem c4_witness :
    classify { id := none, source := none, subject := none, content := none } =
        classifySpec { id := none, source := none, subject := none, content := none } ∧
    classify { id := none, source := none, subject := none, content := none } =
        MessageType.unknown :=
  ⟨(c4_classify_algorithm { id := none, source := none, subject := none, content := none }).1,
   (c4_classify_algorithm { id := none, source := none, subject := none, content := none }).2
     rfl rfl rfl⟩

/-- C5 counterexample. `HumanInTheLoop.confirm` never writes to the
audit trail: with auto-confirm on it approves and records nothing (the
claimed automatic-approval audit event does not exist), and with
auto-confirm off an operator denial of a sensitive action also records
nothing from within `confirm` (the HumanDecision entries are written by
callers, and only on denial). -/
theorem c5_counterexample :
    confirmResult true "post" "no" = (true, []) ∧
    confirmResult false "post" "no" = (false, []) ∧
    confirmResult false "post" "yes" = (true, []) := by
  refine ⟨by decide, by decide, by decide⟩

/-- C5 (amended). `confirm` itself appends nothing to the audit trail in
any case; with auto-confirm set it returns true immediately; otherwise
it returns true for non-sensitive action labels and the parsed operator
decision for sensitive ones. -/
theorem c5_confirm_behaviour (autoConfirm : Bool) (action response : String) :
    (confirmResult autoConfirm action response).2 = [] ∧
    (autoConfirm = true → confirmResult autoConfirm action response = (true, [])) ∧
    (autoConfirm = false → is_sensitive action = false →
      confirmResult autoConfirm action response = (true, [])) ∧
    (autoConfirm = false → is_sensitive action = true →
      confirmResult autoConfirm action response = (responseConfirmed response, [])) := by
  cases autoConfirm <;> rcases hs : is_sensitive action <;>
    simp [confirmResult, hs]

/-- C5 witness: concrete gate decisions via the amended theorem. -/
theorem c5_witness :
    confirmResult true "post" "no" = (true, []) ∧
    confirmResult false "linkedin_post" "YES" =
      (responseConfirmed "YES", []) ∧
    confirmResult false "read_message" "no" = (true, []) :=
  ⟨(c5_confirm_behaviour true "post" "no").2.1 rfl,
   (c5_confirm_behaviour false "linkedin_post" "YES").2.2.2 rfl (by decide),
   (c5_confirm_behaviour false "read_message" "no").2.2.1 rfl (by decide)⟩

/-- C6. For a message classified Unknown, no handler script resolves and
`process_message` fails immediately: errors grow by exactly one, one
classification audit event and one FAILED task entry are written, and
there are zero subprocess invocations, zero sleeps and zero loop
iterations (the Ralph loop is never started). -/
theorem c6_no_handler_immediate_error (ac : Bool) (resp : String)
    (attempts : Nat → AttemptResult) (c : OrchCounters) (msg : Message)
    (hu : classify msg = MessageType.unknown) :
    getScriptForMessage msg (classify msg) = none ∧
    processMessage ac resp attempts c msg =
      { success := false,
        counters := { tasks_processed := c.tasks_processed, errors := c.errors + 1 },
        ralph := none,
        audit := [.event "MESSAGE_CLASSIFIED"
            ("Task: " ++ msg.id.getD ("task_" ++ toString c.tasks_processed)
              ++ ", Type: " ++ "unknown") "INFO",
          .task (msg.id.getD ("task_" ++ toString c.tasks_processed))
            "CLASSIFY" "unknown" "FAILED" "No matching script found"],
        procCalls := 0, sleeps := [], iterCalls := 0 } := by
  constructor
  · rw [hu]; rfl
  · have hcb := confirmB_process_message ac resp
    unfold processMessage
    rw [if_neg (by simp [hcb])]
    rw [hu]
    simp [getScriptForMessage, MessageType.value]

/-- C6 witness: the spec's `unknown_platform` scenario. -/
theorem c6_witness :
    classify { id := none, source := some "unknown_platform", subject := none,
               content := none } = MessageType.unknown ∧
    processMessage false "" (fun _ => AttemptResult.timedOut)
        { tasks_processed := 0, errors := 0 }
        { id := none, source := some "unknown_platform", subject := none,
          content := none } =
      { success := false, counters := { tasks_processed := 0, errors := 1 },
        ralph := none,
        audit := [.event "MESSAGE_CLASSIFIED"
            ("Task: " ++ "task_0" ++ ", Type: " ++ "unknown") "INFO",
          .task "task_0" "CLASSIFY" "unknown" "FAILED" "No matching script found"],
        procCalls := 0, sleeps := [], iterCalls := 0 } := by
  have h := c6_no_handler_immediate_error false "" (fun _ => AttemptResult.timedOut)
    { tasks_processed := 0, errors := 0 }
    { id := none, source := some "unknown_platform", subject := none, content := none }
    (by decide)
  exact ⟨by decide, h.2⟩

/-- C7. The run's returned success rate is
`processed / (processed + errors) * 100` when any task was counted, and
`100.0` when none was; in particular 7 processed and 3 errors give 70
and 0/0 gives 100. -/
theorem c7_success_rate (ac : Bool) (resp : String)
    (attempts : Nat → AttemptResult) (inbox : List Message) (p e : Nat) :
    (runOrchestrator ac resp attempts inbox).success_rate =
      computeSuccessRate (runOrchestrator ac resp attempts inbox).processed
        (runOrchestrator ac resp attempts inbox).errors ∧
    (0 < p + e →
      computeSuccessRate p e = (p : ℚ) / ((p : ℚ) + (e : ℚ)) * 100) ∧
    computeSuccessRate 7 3 = 70 ∧
    computeSuccessRate 0 0 = 100 := by
  refine ⟨?_, ?_, ?_, ?_⟩
  · unfold runOrchestrator
    split
    · simp [computeSuccessRate]
    · rfl
  · intro h
    rw [computeSuccessRate, if_pos h]
  · norm_num [computeSuccessRate]
  · norm_num [computeSuccessRate]

/-- C7 witness: the 7/3 instance through the theorem. -/
theorem c7_witness :
    0 < 7 + 3 ∧
    computeSuccessRate 7 3 = (7 : ℚ) / ((7 : ℚ) + (3 : ℚ)) * 100 ∧
    computeSuccessRate 7 3 = 70 ∧
    computeSuccessRate 0 0 = 100 := by
  have h := c7_success_rate true "" (fun _ => AttemptResult.timedOut) [] 7 3
  exact ⟨by norm_num, h.2.1 (by norm_num), h.2.2.1, h.2.2.2⟩

/-- C8. The audit trail is append-only: any sequence of `AuditLogger`
calls extends the file by exactly the rendered blocks of those calls in
call order, so every previously written block is preserved unchanged (the
old file is a prefix of the new one) and entry order is append order. -/
theorem c8_audit_append_only (file : List String)
    (writes : List (String × AuditEntry)) :
    writeAudits file writes =
      file ++ writes.map (fun w => renderAuditEntry w.1 w.2) ∧
    file <+: writeAudits file writes := by
  have h : ∀ (ws : List (String × AuditEntry)) (f : List String),
      writeAudits f ws = f ++ ws.map (fun w => renderAuditEntry w.1 w.2) := by
    intro ws
    induction ws with
    | nil => intro f; simp [writeAudits]
    | cons w ws ih =>
      intro f
      show writeAudits (writeAudit f w) ws = _
      rw [ih]
      simp [writeAudit]
  exact ⟨h writes file, ⟨writes.map (fun w => renderAuditEntry w.1 w.2),
    (h writes file).symm⟩⟩

/-- C9. The entry point runs one pass of the orchestrator over the
inbox, reports that run's aggregate summary (processed, errors, success
rate), and exits with code 0 exactly when the run's error count is 0,
else 1. -/
theorem c9_exit_code (ac : Bool) (resp : String)
    (attempts : Nat → AttemptResult) (inbox : List Message) :
    (mainEntry ac resp attempts inbox).summary =
      runOrchestrator ac resp attempts inbox ∧
    (mainEntry ac resp attempts inbox).exitCode =
      (if (runOrchestrator ac resp attempts inbox).errors = 0 then 0 else 1) ∧
    ((mainEntry ac resp attempts inbox).exitCode = 0 ↔
      (mainEntry ac resp attempts inbox).summary.errors = 0) := by
  refine ⟨rfl, rfl, ?_⟩
  by_cases h : (runOrchestrator ac resp attempts inbox).errors = 0 <;>
    simp [mainEntry, h]

/-- C10. A message whose lowered source contains no personal-domain tag
but contains the character `x` is classified Business regardless of
subject and content, because `'x'` is in `BUSINESS_DOMAINS` and source
matching is substring containment checked before keyword scoring. -/
theorem c10_x_source_is_business (msg : Message)
    (hp : PERSONAL_DOMAINS.any
      (fun d => substrB d (toLowerStr (msg.source.getD ""))) = false)
    (hx : substrB "x" (toLowerStr (msg.source.getD "")) = true) :
    classify msg = MessageType.business := by
  have hb : BUSINESS_DOMAINS.any
      (fun d => substrB d (toLowerStr (msg.source.getD ""))) = true :=
    List.any_eq_true.mpr ⟨"x", by decide, hx⟩
  unfold classify classifyStrings
  rw [hp, hb]
  simp

/-- C10 witness: source `"mailbox"` with strongly personal subject and
content is still Business. -/
theorem c10_witness :
    PERSONAL_DOMAINS.any (fun d => substrB d (toLowerStr "mailbox")) = false ∧
    substrB "x" (toLowerStr "mailbox") = true ∧
    classify { id := none, source := some "mailbox",
               subject := some "family dinner party", content := some "birthday" } =
      MessageType.business :=
  ⟨by decide, by decide,
   c10_x_source_is_business
     { id := none, source := some "mailbox", subject := some "family dinner party",
       content := some "birthday" } (by decide) (by decide)⟩

end Orch
